import Mathlib

/-!
Shallow embedding of the PC/SC UID-reading core of `pcsc_uid.py`
(TrachQuiz repository): the APDU response decoder, the one-shot UID
readers for Windows and macOS, and the event-driven `NFCReader` class
(`wait_for_card` / `read_uid`).  Foreign calls into the OS smart-card
service are modelled by environment records carrying the status codes
and buffers those calls would return; resource acquisition and release
are recorded as an explicit event trace.
-/

namespace PcscUid

/-- Embedding of the module-level constant `SCARD_E_NO_SMARTCARD = 0x8010000C`. -/
def SCARD_E_NO_SMARTCARD : Nat := 0x8010000C

/-- Embedding of the module-level constant `SCARD_W_REMOVED_CARD = 0x80100069`. -/
def SCARD_W_REMOVED_CARD : Nat := 0x80100069

/-- The timeout status code compared literally in `wait_for_card`
(`elif rv == 0x8010000A`). -/
def SCARD_E_TIMEOUT : Nat := 0x8010000A

/-- Embedding of `SCARD_STATE_UNAWARE = 0x00000000`. -/
def SCARD_STATE_UNAWARE : Nat := 0x00000000

/-- Embedding of `SCARD_STATE_UNAVAILABLE = 0x00000008`. -/
def SCARD_STATE_UNAVAILABLE : Nat := 0x00000008

/-- Embedding of `SCARD_STATE_EMPTY = 0x00000010`. -/
def SCARD_STATE_EMPTY : Nat := 0x00000010

/-- Embedding of `SCARD_STATE_PRESENT = 0x00000020`. -/
def SCARD_STATE_PRESENT : Nat := 0x00000020

/-- One uppercase hexadecimal digit for a value below 16 (digits `0`-`9`
then `A`-`F`).  Together with `byteHex` this embeds Python's
`bytes.hex().upper()` used in `_hex`. -/
def hexDigit (n : Nat) : Char :=
  if n < 10 then Char.ofNat (48 + n) else Char.ofNat (55 + n)

/-- The two uppercase hex digits of one byte, high nibble first. -/
def byteHex (b : Nat) : List Char :=
  [hexDigit (b / 16), hexDigit (b % 16)]

/-- Embedding of `_hex(b) = b.hex().upper()`: the uppercase hexadecimal
string of a byte sequence, two digits per byte. -/
def hexUpper (l : List Nat) : String :=
  String.mk ((l.map byteHex).flatten)

/-- Failure outcomes of the APDU response decoding step
(lines 100-105 of `_read_uid_windows`, identically lines 323-328 of
`_read_uid_macos`): `raise RuntimeError("Short response")` and
`raise RuntimeError(f"GET_UID failed: SW=...")`. -/
inductive DecodeErr where
  | shortResponse
  | cardCommandError (sw1 sw2 : Nat)
deriving DecidableEq, Repr

/-- Embedding of the one-shot response decoding step:

    resp = recv_buf.raw[:recv_len.value]
    if len(resp) < 2: raise RuntimeError("Short response")
    data, sw1, sw2 = resp[:-2], resp[-2], resp[-1]
    if (sw1, sw2) != (0x90, 0x00): raise RuntimeError(...)
    return _hex(data)

`resp[:-2]` is `take (length - 2)`, `resp[-2]` and `resp[-1]` are the
elements at positions `length - 2` and `length - 1`. -/
def decode (resp : List Nat) : Except DecodeErr String :=
  if resp.length < 2 then .error .shortResponse
  else
    let data := resp.take (resp.length - 2)
    let sw1 := resp.getD (resp.length - 2) 0
    let sw2 := resp.getD (resp.length - 1) 0
    if (sw1, sw2) = (0x90, 0x00) then .ok (hexUpper data)
    else .error (.cardCommandError sw1 sw2)

/-- The payload of each distinct `RuntimeError` f-string raised by the
one-shot readers.  The message formats are pairwise distinct string
prefixes in the source (`"SCardEstablishContext failed: ..."`,
`"SCardListReaders(size) failed: ..."`, `"SCardListReaders failed: ..."`,
`"No PC/SC readers found"`, `"SCardConnect failed: ..."`,
`"SCardTransmit failed: ..."`, `"Short response"`,
`"GET_UID failed: SW=..."`), so one constructor per raise site is a
faithful rendering of the message. -/
inductive RtMsg where
  | establishFailed (code : Int)
  | listSizeFailed (code : Int)
  | listFailed (code : Int)
  | noReaders
  | connectFailed (code : Int)
  | transmitFailed (code : Int)
  | shortResponse
  | getUidFailed (sw1 sw2 : Nat)
deriving DecidableEq, Repr

/-- A fault surfaced by the one-shot readers: either the dedicated
exception class `NoCardDetectedError`, or a `RuntimeError` carrying one
of the distinct messages. -/
inductive PyErr where
  | noCardDetected
  | runtimeError (msg : RtMsg)
deriving DecidableEq, Repr

/-- Environment of one one-shot execution: the status codes the foreign
PC/SC calls return, the enumerated reader names, and the transmit
response bytes. -/
structure OneShotEnv where
  establishRv : Int
  listSizeRv : Int
  listRv : Int
  readers : List String
  connectRv : Int
  transmitRv : Int
  resp : List Nat
deriving DecidableEq, Repr

/-- Resource events, recorded in order of occurrence, of one one-shot
execution: context establishment and release, card connect and
disconnect. -/
inductive Ev where
  | establish
  | connect
  | disconnect
  | release
deriving DecidableEq, Repr

/-- The transmit-and-decode step shared by both one-shot readers
(`SCardTransmit` guard followed by the decoding of the response),
mapping decoder failures to the `RuntimeError` messages raised. -/
def transmitAndDecode (env : OneShotEnv) : Except PyErr String :=
  if env.transmitRv ≠ 0 then .error (.runtimeError (.transmitFailed env.transmitRv))
  else
    match decode env.resp with
    | .error .shortResponse => .error (.runtimeError .shortResponse)
    | .error (.cardCommandError s1 s2) => .error (.runtimeError (.getUidFailed s1 s2))
    | .ok u => .ok u

/-- Body of `_read_uid_windows` inside the outer `try` (after the
context is established): list readers twice, pick `readers[0]`, connect
with the signed/unsigned normalization `rv & 0xFFFFFFFF` (in Lean:
`% 4294967296`, which agrees with Python's masking on negative ints),
then transmit and decode inside `try ... finally: SCardDisconnect`. -/
def windowsBody (env : OneShotEnv) : Except PyErr String × List Ev :=
  if env.listSizeRv ≠ 0 then (.error (.runtimeError (.listSizeFailed env.listSizeRv)), [])
  else if env.listRv ≠ 0 then (.error (.runtimeError (.listFailed env.listRv)), [])
  else
    match env.readers with
    | [] => (.error (.runtimeError .noReaders), [])
    | _ :: _ =>
      if env.connectRv ≠ 0 then
        if env.connectRv % 4294967296 = (SCARD_W_REMOVED_CARD : Int) ∨
            env.connectRv % 4294967296 = (SCARD_E_NO_SMARTCARD : Int) then
          (.error .noCardDetected, [])
        else
          (.error (.runtimeError (.connectFailed env.connectRv)), [])
      else
        (transmitAndDecode env, [Ev.connect, Ev.disconnect])

/-- Embedding of `_read_uid_windows`: establish the context, then run
the body inside `try ... finally: SCardReleaseContext`.  The second
component is the resource-event trace. -/
def windowsFlow (env : OneShotEnv) : Except PyErr String × List Ev :=
  if env.establishRv ≠ 0 then
    (.error (.runtimeError (.establishFailed env.establishRv)), [])
  else
    ((windowsBody env).1, Ev.establish :: (windowsBody env).2 ++ [Ev.release])

/-- Body of `_read_uid_macos` inside the outer `try`: identical to the
Windows body except that the connect guard is the plain
`if rv != SCARD_S_SUCCESS: raise RuntimeError(...)` with no no-card
classification. -/
def macosBody (env : OneShotEnv) : Except PyErr String × List Ev :=
  if env.listSizeRv ≠ 0 then (.error (.runtimeError (.listSizeFailed env.listSizeRv)), [])
  else if env.listRv ≠ 0 then (.error (.runtimeError (.listFailed env.listRv)), [])
  else
    match env.readers with
    | [] => (.error (.runtimeError .noReaders), [])
    | _ :: _ =>
      if env.connectRv ≠ 0 then
        (.error (.runtimeError (.connectFailed env.connectRv)), [])
      else
        (transmitAndDecode env, [Ev.connect, Ev.disconnect])

/-- Embedding of `_read_uid_macos`: establish the context, then run the
body inside `try ... finally: SCardReleaseContext`. -/
def macosFlow (env : OneShotEnv) : Except PyErr String × List Ev :=
  if env.establishRv ≠ 0 then
    (.error (.runtimeError (.establishFailed env.establishRv)), [])
  else
    ((macosBody env).1, Ev.establish :: (macosBody env).2 ++ [Ev.release])

/-- The watch state an `NFCReader` instance carries between calls:
`self.reader_name` and `self.reader_states[0].dwCurrentState`. -/
structure WatchState where
  readerName : Option String
  currentState : Nat
deriving DecidableEq, Repr

/-- Environment of one `wait_for_card` call: the reader names
`_get_readers` would return if it is called, the status code of
`SCardGetStatusChangeW`, and the `dwEventState` the service writes into
the reader-state record. -/
structure PollEnv where
  readers : List String
  rv : Int
  eventState : Nat
deriving DecidableEq, Repr

/-- The arguments the `SCardGetStatusChangeW` call is issued with: the
watched reader name and the `dwCurrentState` fed back to the service. -/
structure PollReq where
  reader : String
  currentState : Nat
deriving DecidableEq, Repr

/-- Outcome of one `wait_for_card` call: the returned token, the watch
state left behind for the next call, and the status-change request that
was issued (`none` when the call returned before polling because no
reader could be found). -/
structure PollResult where
  result : Option String
  state : WatchState
  req : Option PollReq
deriving DecidableEq, Repr

/-- Python truthiness of the stored reader name, as tested by
`if not self.reader_name:` — both `None` and the empty string are
falsy. -/
def readerKnown : Option String → Bool
  | none => false
  | some r => !(r == "")

/-- The part of `wait_for_card` from the `SCardGetStatusChangeW` call
onwards:

1. on `rv == 0`, set `dwCurrentState = dwEventState` (before any
   branching) and decide with bit priority PRESENT, EMPTY, UNAVAILABLE
   (the last also clears `reader_name`), else fall through to `None`;
2. on `rv == 0x8010000A`, do nothing (`pass`) and return `None`;
3. on any other `rv`, clear `reader_name` and return `None`.

Note the source compares `rv` with `0x8010000A` literally, without the
`& 0xFFFFFFFF` normalization used at the one-shot connect site. -/
def pollStep (s : WatchState) (env : PollEnv) : PollResult :=
  let req := some (⟨s.readerName.getD "", s.currentState⟩ : PollReq)
  if env.rv = 0 then
    let es := env.eventState
    if es &&& SCARD_STATE_PRESENT ≠ 0 then
      { result := some "present", state := ⟨s.readerName, es⟩, req := req }
    else if es &&& SCARD_STATE_EMPTY ≠ 0 then
      { result := some "empty", state := ⟨s.readerName, es⟩, req := req }
    else if es &&& SCARD_STATE_UNAVAILABLE ≠ 0 then
      { result := some "unavailable", state := ⟨none, es⟩, req := req }
    else
      { result := none, state := ⟨s.readerName, es⟩, req := req }
  else if env.rv = (SCARD_E_TIMEOUT : Int) then
    { result := none, state := s, req := req }
  else
    { result := none, state := ⟨none, s.currentState⟩, req := req }

/-- Embedding of `NFCReader.wait_for_card`: if no reader is known
(`if not self.reader_name:`), re-enumerate; none found returns `None`
without polling, otherwise store `readers[0]` with `dwCurrentState`
set to `SCARD_STATE_UNAWARE`; then issue the bounded status-change
wait and branch on its outcome (`pollStep`). -/
def waitForCard (s : WatchState) (env : PollEnv) : PollResult :=
  if readerKnown s.readerName then
    pollStep s env
  else
    match env.readers with
    | [] => { result := none, state := s, req := none }
    | r :: _ => pollStep ⟨some r, SCARD_STATE_UNAWARE⟩ env

/-- Environment of one `NFCReader.read_uid` call: the status codes of
`SCardConnectW` and `SCardTransmit` and the response bytes. -/
structure ReadEnv where
  connectRv : Int
  transmitRv : Int
  resp : List Nat
deriving DecidableEq, Repr

/-- The response acceptance check of `NFCReader.read_uid`:

    if len(resp) >= 2 and resp[-2:] == b'\x90\x00':
        return _hex(resp[:-2])

`resp[-2:]` for a sequence of length at least 2 is
`drop (length - 2)`. -/
def readUidCheck (resp : List Nat) : Option String :=
  if 2 ≤ resp.length ∧ resp.drop (resp.length - 2) = [0x90, 0x00] then
    some (hexUpper (resp.take (resp.length - 2)))
  else none

/-- Embedding of `NFCReader.read_uid`: return `None` when no reader is
known (`if not self.reader_name:`); connect, returning `None` on any
connect failure; transmit and, on transmit success, apply
`readUidCheck`; every other path falls through to the final
`return None`.  The function is total: no path raises. -/
def readUid (s : WatchState) (env : ReadEnv) : Option String :=
  if readerKnown s.readerName then
    if env.connectRv ≠ 0 then none
    else if env.transmitRv = 0 then readUidCheck env.resp
    else none
  else none

/-- The fault taxonomy of the specification (section 7). -/
inductive FaultKind where
  | subsystemUnavailable
  | noReaderFound
  | noCardDetected
  | cardCommandError
  | shortResponse
  | runtimeFailure
deriving DecidableEq, Repr

/-- How a caller classifies a surfaced fault: `NoCardDetectedError` by
its exception class, every `RuntimeError` by its message, which is
possible because the eight message formats are pairwise distinct.
Context establishment failure is the taxonomy's `SubsystemUnavailable`;
the empty reader list is `NoReaderFound`; list/connect/transmit status
failures are generic `RuntimeFailure`s. -/
def errKind : PyErr → FaultKind
  | .noCardDetected => .noCardDetected
  | .runtimeError (.establishFailed _) => .subsystemUnavailable
  | .runtimeError (.listSizeFailed _) => .runtimeFailure
  | .runtimeError (.listFailed _) => .runtimeFailure
  | .runtimeError .noReaders => .noReaderFound
  | .runtimeError (.connectFailed _) => .runtimeFailure
  | .runtimeError (.transmitFailed _) => .runtimeFailure
  | .runtimeError .shortResponse => .shortResponse
  | .runtimeError (.getUidFailed _ _) => .cardCommandError

section Helpers

/-- The element at position `data.length` of `data ++ [a, b]` is `a`. -/
theorem getD_append_two_left (data : List Nat) (a b : Nat) :
    (data ++ [a, b]).getD data.length 0 = a := by
  simp [List.getD_eq_getElem?_getD, List.getElem?_append_right]
  rw [List.getElem_append_right (Nat.le_refl _)]
  simp

/-- The element at position `data.length + 1` of `data ++ [a, b]` is `b`. -/
theorem getD_append_two_right (data : List Nat) (a b : Nat) :
    (data ++ [a, b]).getD (data.length + 1) 0 = b := by
  simp [List.getD_eq_getElem?_getD, List.getElem?_append_right]
  rw [List.getElem_append_right (by omega)]
  simp

/-- Evaluation of `decode` on a response split into data and the two
trailing status-word bytes. -/
theorem decode_append_two (data : List Nat) (a b : Nat) :
    decode (data ++ [a, b]) =
      if (a, b) = (0x90, 0x00) then Except.ok (hexUpper data)
      else Except.error (DecodeErr.cardCommandError a b) := by
  have hlen : (data ++ [a, b]).length = data.length + 2 := by simp
  have hlt : ¬ (data ++ [a, b]).length < 2 := by omega
  have h2 : (data ++ [a, b]).length - 2 = data.length := by omega
  have h1 : (data ++ [a, b]).length - 1 = data.length + 1 := by omega
  unfold decode
  rw [if_neg hlt]
  simp only [h2, h1, List.take_left, getD_append_two_left, getD_append_two_right]

/-- Every byte sequence of length at least 2 splits into data bytes and
two trailing bytes. -/
theorem exists_append_two (resp : List Nat) (h : 2 ≤ resp.length) :
    ∃ data a b, resp = data ++ [a, b] := by
  match hrev : resp.reverse with
  | [] =>
    have h0 : resp.length = 0 := by
      have := congrArg List.length hrev
      simpa using this
    omega
  | [x] =>
    have h1 : resp.length = 1 := by
      have := congrArg List.length hrev
      simpa using this
    omega
  | b :: a :: t =>
    refine ⟨t.reverse, a, b, ?_⟩
    have hr : resp = (b :: a :: t).reverse := by
      rw [← hrev, List.reverse_reverse]
    simpa using hr

/-- The hexadecimal string of a byte sequence has two characters per
byte. -/
theorem hexUpper_length (l : List Nat) : (hexUpper l).length = 2 * l.length := by
  induction l with
  | nil => rfl
  | cons a t ih =>
    simp only [hexUpper, String.length, List.map_cons, List.flatten_cons, byteHex] at *
    simp only [List.length_append, List.length_cons, List.length_nil] at *
    omega

/-- Each hexadecimal digit of a value below 16 is an uppercase
hexadecimal character. -/
theorem hexDigit_mem (n : Nat) (h : n < 16) :
    hexDigit n ∈ ("0123456789ABCDEF" : String).data := by
  interval_cases n <;> decide

/-- Every character of the hexadecimal string of a byte sequence is an
uppercase hexadecimal character. -/
theorem hexUpper_chars (l : List Nat) (hb : ∀ b ∈ l, b < 256) :
    ∀ c ∈ (hexUpper l).data, c ∈ ("0123456789ABCDEF" : String).data := by
  intro c hc
  have hc2 : c ∈ (l.map byteHex).flatten := hc
  rw [List.mem_flatten] at hc2
  obtain ⟨cs, hcs, hccs⟩ := hc2
  rw [List.mem_map] at hcs
  obtain ⟨b, hbl, hbcs⟩ := hcs
  subst hbcs
  have hb16a : b / 16 < 16 := Nat.div_lt_of_lt_mul (hb b hbl)
  have hb16b : b % 16 < 16 := Nat.mod_lt _ (by omega)
  simp only [byteHex, List.mem_cons, List.not_mem_nil, or_false] at hccs
  rcases hccs with h | h <;> subst h
  · exact hexDigit_mem _ hb16a
  · exact hexDigit_mem _ hb16b

/-- When the stored reader name is truthy, `wait_for_card` is exactly
the poll step on the unchanged watch state. -/
theorem waitForCard_eq_pollStep (s : WatchState) (env : PollEnv)
    (h : readerKnown s.readerName) :
    waitForCard s env = pollStep s env := by
  simp [waitForCard, h]

/-- When the stored reader name is falsy, `wait_for_card`
re-enumerates: with no readers it returns early, otherwise it polls
`readers[0]` with an unaware current-state. -/
theorem waitForCard_unknown (s : WatchState) (env : PollEnv)
    (h : readerKnown s.readerName = false) :
    waitForCard s env =
      match env.readers with
      | [] => ⟨none, s, none⟩
      | r :: _ => pollStep ⟨some r, SCARD_STATE_UNAWARE⟩ env := by
  simp [waitForCard, h]

/-- Evaluation of the poll step when the status-change wait reports
success (`rv == 0`). -/
theorem pollStep_rv0 (s : WatchState) (env : PollEnv) (hrv : env.rv = 0) :
    pollStep s env =
      if env.eventState &&& SCARD_STATE_PRESENT ≠ 0 then
        ⟨some "present", ⟨s.readerName, env.eventState⟩,
          some ⟨s.readerName.getD "", s.currentState⟩⟩
      else if env.eventState &&& SCARD_STATE_EMPTY ≠ 0 then
        ⟨some "empty", ⟨s.readerName, env.eventState⟩,
          some ⟨s.readerName.getD "", s.currentState⟩⟩
      else if env.eventState &&& SCARD_STATE_UNAVAILABLE ≠ 0 then
        ⟨some "unavailable", ⟨none, env.eventState⟩,
          some ⟨s.readerName.getD "", s.currentState⟩⟩
      else
        ⟨none, ⟨s.readerName, env.eventState⟩,
          some ⟨s.readerName.getD "", s.currentState⟩⟩ := by
  simp only [pollStep, hrv, if_true, ite_true]

/-- Evaluation of the poll step when the status-change wait reports a
non-success status. -/
theorem pollStep_rvne (s : WatchState) (env : PollEnv) (hrv : env.rv ≠ 0) :
    pollStep s env =
      if env.rv = (SCARD_E_TIMEOUT : Int) then
        ⟨none, s, some ⟨s.readerName.getD "", s.currentState⟩⟩
      else
        ⟨none, ⟨none, s.currentState⟩,
          some ⟨s.readerName.getD "", s.currentState⟩⟩ := by
  simp only [pollStep, if_neg hrv]

/-- The poll step always records the status-change request it issued:
the stored reader name and current-state. -/
theorem pollStep_req (s : WatchState) (env : PollEnv) :
    (pollStep s env).req = some ⟨s.readerName.getD "", s.currentState⟩ := by
  by_cases hrv : env.rv = 0
  · rw [pollStep_rv0 s env hrv]
    split
    · rfl
    · split
      · rfl
      · split
        · rfl
        · rfl
  · rw [pollStep_rvne s env hrv]
    split <;> rfl

/-- The trace of the Windows one-shot body is empty or a matched
connect/disconnect pair. -/
theorem windowsBody_trace (env : OneShotEnv) :
    (windowsBody env).2 = [] ∨ (windowsBody env).2 = [Ev.connect, Ev.disconnect] := by
  unfold windowsBody
  repeat' split
  all_goals first | exact Or.inl rfl | exact Or.inr rfl

/-- The trace of the macOS one-shot body is empty or a matched
connect/disconnect pair. -/
theorem macosBody_trace (env : OneShotEnv) :
    (macosBody env).2 = [] ∨ (macosBody env).2 = [Ev.connect, Ev.disconnect] := by
  unfold macosBody
  repeat' split
  all_goals first | exact Or.inl rfl | exact Or.inr rfl

/-- The three possible resource traces of `_read_uid_windows`. -/
theorem windowsFlow_trace (env : OneShotEnv) :
    (windowsFlow env).2 = [] ∨
    (windowsFlow env).2 = [Ev.establish, Ev.release] ∨
    (windowsFlow env).2 = [Ev.establish, Ev.connect, Ev.disconnect, Ev.release] := by
  unfold windowsFlow
  split
  · exact Or.inl rfl
  · rcases windowsBody_trace env with h | h <;> rw [h] <;> simp

/-- The three possible resource traces of `_read_uid_macos`. -/
theorem macosFlow_trace (env : OneShotEnv) :
    (macosFlow env).2 = [] ∨
    (macosFlow env).2 = [Ev.establish, Ev.release] ∨
    (macosFlow env).2 = [Ev.establish, Ev.connect, Ev.disconnect, Ev.release] := by
  unfold macosFlow
  split
  · exact Or.inl rfl
  · rcases macosBody_trace env with h | h <;> rw [h] <;> simp

/-- A poll step that returned `"unavailable"`, or whose wait status was
neither 0 nor the literal `0x8010000A`, clears the stored reader
name. -/
theorem pollStep_forgets (s : WatchState) (env : PollEnv)
    (h1 : (pollStep s env).result = some "unavailable" ∨
          (env.rv ≠ 0 ∧ env.rv ≠ (SCARD_E_TIMEOUT : Int))) :
    (pollStep s env).state.readerName = none := by
  by_cases hrv : env.rv = 0
  · rw [pollStep_rv0 s env hrv] at h1 ⊢
    rcases h1 with h1 | ⟨hne, _⟩
    · by_cases hp : env.eventState &&& SCARD_STATE_PRESENT ≠ 0
      · rw [if_pos hp] at h1
        simp at h1
      · rw [if_neg hp] at h1 ⊢
        by_cases he : env.eventState &&& SCARD_STATE_EMPTY ≠ 0
        · rw [if_pos he] at h1
          simp at h1
        · rw [if_neg he] at h1 ⊢
          by_cases hu : env.eventState &&& SCARD_STATE_UNAVAILABLE ≠ 0
          · rw [if_pos hu]
          · rw [if_neg hu] at h1
            simp at h1
    · exact absurd hrv hne
  · rw [pollStep_rvne s env hrv] at h1 ⊢
    by_cases ht : env.rv = (SCARD_E_TIMEOUT : Int)
    · rw [if_pos ht] at h1
      rcases h1 with h1 | ⟨_, hne⟩
      · simp at h1
      · exact absurd ht hne
    · rw [if_neg ht]

/-- When context establishment succeeds, the Windows one-shot result is
the body's result. -/
theorem windowsFlow_fst (env : OneShotEnv) (h : env.establishRv = 0) :
    (windowsFlow env).1 = (windowsBody env).1 := by
  unfold windowsFlow
  rw [if_neg (by simp [h])]

/-- When context establishment succeeds, the macOS one-shot result is
the body's result. -/
theorem macosFlow_fst (env : OneShotEnv) (h : env.establishRv = 0) :
    (macosFlow env).1 = (macosBody env).1 := by
  unfold macosFlow
  rw [if_neg (by simp [h])]

/-- The Windows one-shot trace is empty exactly when context
establishment failed. -/
theorem windowsFlow_trace_establish (env : OneShotEnv) (h : env.establishRv = 0) :
    Ev.establish ∈ (windowsFlow env).2 := by
  unfold windowsFlow
  rw [if_neg (by simp [h])]
  exact List.mem_cons_self _ _

/-- The macOS one-shot trace is empty exactly when context
establishment failed. -/
theorem macosFlow_trace_establish (env : OneShotEnv) (h : env.establishRv = 0) :
    Ev.establish ∈ (macosFlow env).2 := by
  unfold macosFlow
  rw [if_neg (by simp [h])]
  exact List.mem_cons_self _ _

end Helpers

/-- Claim C1, as stated, is false for the signed surfacing of the
timeout status: at watch state (reader `"r"`, current-state 32) and a
`GetStatusChange` status of `-2146435062` (the 32-bit signed equivalent
of `0x8010000A`), `wait_for_card` returns `None` but does not leave the
watch state unchanged: the reader name is cleared. -/
theorem C1_counterexample :
    (waitForCard ⟨some "r", 32⟩ ⟨[], (-2146435062 : Int), 0⟩).result = none ∧
    (waitForCard ⟨some "r", 32⟩ ⟨[], (-2146435062 : Int), 0⟩).state.readerName = none ∧
    ¬ ((waitForCard ⟨some "r", 32⟩ ⟨[], (-2146435062 : Int), 0⟩).state =
        (⟨some "r", 32⟩ : WatchState)) := by
  refine ⟨rfl, rfl, ?_⟩
  intro h
  exact Option.noConfusion (congrArg WatchState.readerName h)

/-- Claim C1 (amended): when a reader is known and `SCardGetStatusChangeW`
returns the timeout status in its unsigned form, exactly `0x8010000A`,
`wait_for_card` returns `None` and leaves the watch state unchanged:
the reader name is retained and the current-state bitmask is not
modified.  (The 32-bit signed equivalent is instead handled by the
unrecognized-error branch, which clears the reader name.) -/
theorem C1_timeout_preserves_state (s : WatchState) (env : PollEnv)
    (hr : readerKnown s.readerName) (hrv : env.rv = (SCARD_E_TIMEOUT : Int)) :
    (waitForCard s env).result = none ∧ (waitForCard s env).state = s := by
  have h0 : env.rv ≠ 0 := by
    rw [hrv]
    decide
  rw [waitForCard_eq_pollStep s env hr, pollStep_rvne s env h0, if_pos hrv]
  exact ⟨rfl, rfl⟩

/-- Witness for C1 at a concrete state and the unsigned timeout
status 2148532234 = `0x8010000A`. -/
theorem C1_timeout_witness :
    (waitForCard ⟨some "r", 32⟩ ⟨[], (2148532234 : Int), 0⟩).result = none ∧
    (waitForCard ⟨some "r", 32⟩ ⟨[], (2148532234 : Int), 0⟩).state =
      (⟨some "r", 32⟩ : WatchState) :=
  C1_timeout_preserves_state ⟨some "r", 32⟩ ⟨[], (2148532234 : Int), 0⟩
    (by decide) rfl

/-- Auxiliary form of claim C3 for the poll step itself. -/
theorem C3aux (s : WatchState) (env : PollEnv) (hrv : env.rv = 0) :
    ((env.eventState &&& SCARD_STATE_PRESENT ≠ 0 →
        (pollStep s env).result = some "present") ∧
     (env.eventState &&& SCARD_STATE_PRESENT = 0 →
        env.eventState &&& SCARD_STATE_EMPTY ≠ 0 →
        (pollStep s env).result = some "empty") ∧
     (env.eventState &&& SCARD_STATE_PRESENT = 0 →
        env.eventState &&& SCARD_STATE_EMPTY = 0 →
        env.eventState &&& SCARD_STATE_UNAVAILABLE ≠ 0 →
        (pollStep s env).result = some "unavailable" ∧
        (pollStep s env).state.readerName = none) ∧
     (env.eventState &&& SCARD_STATE_PRESENT = 0 →
        env.eventState &&& SCARD_STATE_EMPTY = 0 →
        env.eventState &&& SCARD_STATE_UNAVAILABLE = 0 →
        (pollStep s env).result = none) ∧
     (pollStep s env).state.currentState = env.eventState) := by
  rw [pollStep_rv0 s env hrv]
  by_cases hp : env.eventState &&& SCARD_STATE_PRESENT = 0 <;>
    by_cases he : env.eventState &&& SCARD_STATE_EMPTY = 0 <;>
      by_cases hu : env.eventState &&& SCARD_STATE_UNAVAILABLE = 0 <;>
        simp [hp, he, hu]

/-- Claim C3: when the bounded status-change wait succeeds (status 0),
the returned token is decided by bit priority on the event-state
bitmask — PRESENT gives `"present"`, else EMPTY gives `"empty"`, else
UNAVAILABLE clears the reader identity and gives `"unavailable"`, else
the result is absent — and in every branch the event-state is persisted
as the new current-state. -/
theorem C3_success_priority (s : WatchState) (env : PollEnv)
    (hreq : readerKnown s.readerName ∨ env.readers ≠ []) (hrv : env.rv = 0) :
    ((env.eventState &&& SCARD_STATE_PRESENT ≠ 0 →
        (waitForCard s env).result = some "present") ∧
     (env.eventState &&& SCARD_STATE_PRESENT = 0 →
        env.eventState &&& SCARD_STATE_EMPTY ≠ 0 →
        (waitForCard s env).result = some "empty") ∧
     (env.eventState &&& SCARD_STATE_PRESENT = 0 →
        env.eventState &&& SCARD_STATE_EMPTY = 0 →
        env.eventState &&& SCARD_STATE_UNAVAILABLE ≠ 0 →
        (waitForCard s env).result = some "unavailable" ∧
        (waitForCard s env).state.readerName = none) ∧
     (env.eventState &&& SCARD_STATE_PRESENT = 0 →
        env.eventState &&& SCARD_STATE_EMPTY = 0 →
        env.eventState &&& SCARD_STATE_UNAVAILABLE = 0 →
        (waitForCard s env).result = none) ∧
     (waitForCard s env).state.currentState = env.eventState) := by
  by_cases hk : readerKnown s.readerName
  · rw [waitForCard_eq_pollStep s env hk]
    exact C3aux s env hrv
  · have hkf : readerKnown s.readerName = false := by simpa using hk
    cases hread : env.readers with
    | nil =>
      rcases hreq with h | h
      · exact absurd h hk
      · exact absurd hread h
    | cons r rs =>
      rw [waitForCard_unknown s env hkf, hread]
      exact C3aux ⟨some r, SCARD_STATE_UNAWARE⟩ env hrv

/-- Witness for C3 at a concrete call: a known reader, wait status 0,
and an event-state with the PRESENT bit set. -/
theorem C3_success_priority_witness :
    (waitForCard ⟨some "r", 0⟩ ⟨[], 0, 0x20⟩).result = some "present" ∧
    (waitForCard ⟨some "r", 0⟩ ⟨[], 0, 0x20⟩).state.currentState = 0x20 :=
  ⟨(C3_success_priority ⟨some "r", 0⟩ ⟨[], 0, 0x20⟩ (Or.inl (by decide)) rfl).1
      (by decide),
   (C3_success_priority ⟨some "r", 0⟩ ⟨[], 0, 0x20⟩ (Or.inl (by decide)) rfl).2.2.2.2⟩

/-- Claim C4: `NFCReader.read_uid` returns an absent result under any
failure — no reader known, connect failure, transmit failure, a
response shorter than 2 bytes, or a status word other than `0x9000`.
The embedding is a total function, reflecting that no path of
`read_uid` raises to its caller. -/
theorem C4_readUid_absorbs_failures (s : WatchState) (env : ReadEnv)
    (h : readerKnown s.readerName = false ∨ env.connectRv ≠ 0 ∨
         env.transmitRv ≠ 0 ∨ env.resp.length < 2 ∨
         env.resp.drop (env.resp.length - 2) ≠ [0x90, 0x00]) :
    readUid s env = none := by
  by_cases hk : readerKnown s.readerName
  · have step : readUidCheck env.resp = none → readUid s env = none := by
      intro hcheck
      unfold readUid
      rw [if_pos hk]
      by_cases hc : env.connectRv ≠ 0
      · rw [if_pos hc]
      · rw [if_neg hc]
        by_cases htr : env.transmitRv = 0
        · rw [if_pos htr]
          exact hcheck
        · rw [if_neg htr]
    rcases h with h | h | h | h | h
    · rw [h] at hk
      exact absurd hk (by decide)
    · unfold readUid
      rw [if_pos hk, if_pos h]
    · unfold readUid
      rw [if_pos hk]
      by_cases hc : env.connectRv ≠ 0
      · rw [if_pos hc]
      · rw [if_neg hc, if_neg h]
    · refine step ?_
      unfold readUidCheck
      rw [if_neg]
      rintro ⟨ha, _⟩
      omega
    · refine step ?_
      unfold readUidCheck
      rw [if_neg]
      rintro ⟨_, hb⟩
      exact h hb
  · unfold readUid
    rw [if_neg hk]

/-- Witness for C4 at a concrete call: a known reader whose connect
fails with a nonzero status. -/
theorem C4_readUid_witness :
    readUid ⟨some "r", 0⟩ ⟨(-2146435175 : Int), 0, []⟩ = none :=
  C4_readUid_absorbs_failures ⟨some "r", 0⟩ ⟨(-2146435175 : Int), 0, []⟩
    (Or.inr (Or.inl (by decide)))

/-- Claim C9: after a `wait_for_card` call that returned
`"unavailable"`, or that issued the bounded wait and got back an
unrecognized non-zero status, the reader identity is forgotten, and the
next call re-enumerates readers, watching `readers[0]` of the fresh
enumeration with current-state `SCARD_STATE_UNAWARE`. -/
theorem C9_rediscovery (s : WatchState) (env1 env2 : PollEnv) (r : String)
    (rs : List String)
    (h1 : (waitForCard s env1).result = some "unavailable" ∨
          ((waitForCard s env1).req.isSome ∧ env1.rv ≠ 0 ∧
            env1.rv ≠ (SCARD_E_TIMEOUT : Int)))
    (h2 : env2.readers = r :: rs) :
    (waitForCard s env1).state.readerName = none ∧
    (waitForCard (waitForCard s env1).state env2).req =
      some ⟨r, SCARD_STATE_UNAWARE⟩ := by
  have hname : (waitForCard s env1).state.readerName = none := by
    by_cases hk : readerKnown s.readerName
    · rw [waitForCard_eq_pollStep s env1 hk] at h1 ⊢
      apply pollStep_forgets s env1
      rcases h1 with h | ⟨_, hb, hc⟩
      · exact Or.inl h
      · exact Or.inr ⟨hb, hc⟩
    · have hkf : readerKnown s.readerName = false := by simpa using hk
      cases hread : env1.readers with
      | nil =>
        rw [waitForCard_unknown s env1 hkf, hread] at h1
        rcases h1 with h | ⟨h, _, _⟩
        · simp at h
        · simp at h
      | cons r0 rs0 =>
        rw [waitForCard_unknown s env1 hkf, hread] at h1 ⊢
        apply pollStep_forgets ⟨some r0, SCARD_STATE_UNAWARE⟩ env1
        rcases h1 with h | ⟨_, hb, hc⟩
        · exact Or.inl h
        · exact Or.inr ⟨hb, hc⟩
  refine ⟨hname, ?_⟩
  have hkf2 : readerKnown (waitForCard s env1).state.readerName = false := by
    rw [hname]
    rfl
  rw [waitForCard_unknown _ env2 hkf2, h2]
  exact pollStep_req ⟨some r, SCARD_STATE_UNAWARE⟩ env2

/-- Witness for C9 at a concrete pair of calls: the first call gets an
unrecognized wait status 1, the second call enumerates reader `"b"`. -/
theorem C9_rediscovery_witness :
    (waitForCard ⟨some "a", 32⟩ ⟨[], 1, 0⟩).state.readerName = none ∧
    (waitForCard (waitForCard ⟨some "a", 32⟩ ⟨[], 1, 0⟩).state
        ⟨["b"], 0, 0⟩).req = some ⟨"b", SCARD_STATE_UNAWARE⟩ :=
  C9_rediscovery ⟨some "a", 32⟩ ⟨[], 1, 0⟩ ⟨["b"], 0, 0⟩ "b" []
    (Or.inr ⟨rfl, by decide, by decide⟩) rfl

/-- Claim C2, as stated, is false on the macOS one-shot path: with a
connect failure of status 0x8010000C (= 2148532236, one of the two
no-card codes), `_read_uid_macos` raises the generic
`RuntimeError("SCardConnect failed: ...")`, not `NoCardDetectedError`. -/
theorem C2_counterexample :
    (macosFlow ⟨0, 0, 0, ["r"], 2148532236, 0, []⟩).1 =
      Except.error (PyErr.runtimeError (RtMsg.connectFailed 2148532236)) ∧
    (macosFlow ⟨0, 0, 0, ["r"], 2148532236, 0, []⟩).1 ≠
      Except.error PyErr.noCardDetected := by
  constructor
  · rfl
  · intro h
    have h2 : PyErr.runtimeError (RtMsg.connectFailed 2148532236) =
        PyErr.noCardDetected := Except.error.inj h
    exact PyErr.noConfusion h2

/-- Claim C2 (amended): on the Windows one-shot path, a connect failure
whose status normalized to unsigned 32-bit equals 0x8010000C or
0x80100069 fails with `NoCardDetectedError`, and any other connect
failure fails with the `RuntimeError` carrying the code; the macOS
one-shot path instead fails every connect failure, including the two
no-card codes, with the `RuntimeError` carrying the code. -/
theorem C2_connect_classification (env : OneShotEnv)
    (he : env.establishRv = 0) (hs : env.listSizeRv = 0) (hl : env.listRv = 0)
    (hr : env.readers ≠ []) (hc : env.connectRv ≠ 0) :
    ((env.connectRv % 4294967296 = (SCARD_E_NO_SMARTCARD : Int) ∨
      env.connectRv % 4294967296 = (SCARD_W_REMOVED_CARD : Int)) →
        (windowsFlow env).1 = Except.error PyErr.noCardDetected) ∧
    (¬ (env.connectRv % 4294967296 = (SCARD_E_NO_SMARTCARD : Int) ∨
        env.connectRv % 4294967296 = (SCARD_W_REMOVED_CARD : Int)) →
        (windowsFlow env).1 =
          Except.error (PyErr.runtimeError (RtMsg.connectFailed env.connectRv))) ∧
    (macosFlow env).1 =
      Except.error (PyErr.runtimeError (RtMsg.connectFailed env.connectRv)) := by
  cases hread : env.readers with
  | nil => exact absurd hread hr
  | cons r0 rs0 =>
    have hbody : windowsBody env =
        if env.connectRv % 4294967296 = (SCARD_W_REMOVED_CARD : Int) ∨
            env.connectRv % 4294967296 = (SCARD_E_NO_SMARTCARD : Int) then
          (Except.error PyErr.noCardDetected, ([] : List Ev))
        else
          (Except.error (PyErr.runtimeError (RtMsg.connectFailed env.connectRv)),
            ([] : List Ev)) := by
      simp only [windowsBody, hs, hl, hread]
      simp [hc]
    have hbodyM : macosBody env =
        (Except.error (PyErr.runtimeError (RtMsg.connectFailed env.connectRv)),
          ([] : List Ev)) := by
      simp only [macosBody, hs, hl, hread]
      simp [hc]
    refine ⟨?_, ?_, ?_⟩
    · intro hcode
      rw [windowsFlow_fst env he, hbody]
      rcases hcode with h | h
      · rw [if_pos (Or.inr h)]
      · rw [if_pos (Or.inl h)]
    · intro hcode
      rw [windowsFlow_fst env he, hbody, if_neg ?_]
      rintro (h | h)
      · exact hcode (Or.inr h)
      · exact hcode (Or.inl h)
    · rw [macosFlow_fst env he, hbodyM]

/-- Witness for C2 at a concrete execution: connect status
-2146434967, the 32-bit signed equivalent of 0x80100069, is classified
as no card on the Windows path. -/
theorem C2_connect_classification_witness :
    (windowsFlow ⟨0, 0, 0, ["r"], (-2146434967 : Int), 0, []⟩).1 =
      Except.error PyErr.noCardDetected :=
  (C2_connect_classification ⟨0, 0, 0, ["r"], (-2146434967 : Int), 0, []⟩
      rfl rfl rfl (by decide) (by decide)).1 (Or.inr (by decide))

/-- Claim C5: for every response whose trailing two bytes are
0x90 0x00, the decode step returns the uppercase hexadecimal string of
the data bytes, of string length 2 × (len(response) − 2), made only of
uppercase hexadecimal characters. -/
theorem C5_decode_success (resp data : List Nat)
    (hb : ∀ b ∈ resp, b < 256)
    (hsplit : resp = data ++ [0x90, 0x00]) :
    decode resp = Except.ok (hexUpper data) ∧
    (hexUpper data).length = 2 * (resp.length - 2) ∧
    ∀ c ∈ (hexUpper data).data, c ∈ ("0123456789ABCDEF" : String).data := by
  subst hsplit
  refine ⟨?_, ?_, ?_⟩
  · rw [decode_append_two]
    simp
  · rw [hexUpper_length]
    simp
  · apply hexUpper_chars
    intro b hbd
    exact hb b (by simp [hbd])

/-- Witness for C5 at the 2-byte response 90 00, which decodes to the
empty string. -/
theorem C5_decode_success_witness :
    decode [0x90, 0x00] = Except.ok (hexUpper []) ∧
    (hexUpper []).length = 2 * (([0x90, 0x00] : List Nat).length - 2) ∧
    hexUpper [] = "" :=
  ⟨(C5_decode_success [0x90, 0x00] [] (by decide) rfl).1,
   (C5_decode_success [0x90, 0x00] [] (by decide) rfl).2.1,
   rfl⟩

/-- Claim C6: the decode step succeeds exactly on the responses of
length at least 2 whose trailing two bytes are 0x90 0x00; inputs of
length 0 or 1 fail with the short-response fault, and longer inputs
with a different trailer fail with the card-command fault carrying the
two trailing bytes. -/
theorem C6_decode_failure (resp : List Nat) :
    (resp.length < 2 → decode resp = Except.error DecodeErr.shortResponse) ∧
    (∀ data a b, resp = data ++ [a, b] → (a, b) ≠ (0x90, 0x00) →
      decode resp = Except.error (DecodeErr.cardCommandError a b)) ∧
    ((∃ u, decode resp = Except.ok u) ↔
      2 ≤ resp.length ∧ resp.drop (resp.length - 2) = [0x90, 0x00]) := by
  refine ⟨?_, ?_, ?_⟩
  · intro h
    unfold decode
    rw [if_pos h]
  · rintro data a b rfl hne
    rw [decode_append_two, if_neg hne]
  · by_cases h : 2 ≤ resp.length
    · obtain ⟨data, a, b, rfl⟩ := exists_append_two resp h
      have h2 : (data ++ [a, b]).length - 2 = data.length := by
        simp
      rw [decode_append_two, h2, List.drop_left]
      by_cases hab : (a, b) = ((0x90 : Nat), (0x00 : Nat))
      · obtain ⟨ha, hb⟩ : a = 0x90 ∧ b = 0x00 := by simpa using hab
        subst ha
        subst hb
        rw [if_pos rfl]
        simp [h]
      · rw [if_neg hab]
        constructor
        · rintro ⟨u, hu⟩
          exact absurd hu (by simp)
        · rintro ⟨_, hdrop⟩
          have hab2 : a = 0x90 ∧ b = 0x00 := by simpa using hdrop
          exact absurd (by simp [hab2.1, hab2.2]) hab
    · have hlt : resp.length < 2 := by omega
      unfold decode
      rw [if_pos hlt]
      constructor
      · rintro ⟨u, hu⟩
        exact absurd hu (by simp)
      · rintro ⟨h2, _⟩
        omega

/-- Witness for C6: the responses 6A 81 (bad status word) and single
byte 63 (too short), via the respective conjuncts at concrete inputs. -/
theorem C6_decode_failure_witness :
    decode [0x6A, 0x81] = Except.error (DecodeErr.cardCommandError 0x6A 0x81) ∧
    decode [0x63] = Except.error DecodeErr.shortResponse :=
  ⟨(C6_decode_failure [0x6A, 0x81]).2.1 [] 0x6A 0x81 rfl (by decide),
   (C6_decode_failure [0x63]).1 (by decide)⟩

/-- Claim C7: in every one-shot execution, on both platforms, once the
context is established the event trace ends with its release, and once
a connection is opened the trace is exactly establish, connect,
disconnect, release — the disconnect precedes the release; establish
and release counts match, as do connect and disconnect counts, so no
execution leaves a handle open. -/
theorem C7_guaranteed_cleanup (env : OneShotEnv) :
    ((Ev.establish ∈ (windowsFlow env).2 →
        (windowsFlow env).2.getLast? = some Ev.release) ∧
     (Ev.connect ∈ (windowsFlow env).2 →
        (windowsFlow env).2 =
          [Ev.establish, Ev.connect, Ev.disconnect, Ev.release]) ∧
     (windowsFlow env).2.count Ev.establish = (windowsFlow env).2.count Ev.release ∧
     (windowsFlow env).2.count Ev.connect = (windowsFlow env).2.count Ev.disconnect) ∧
    ((Ev.establish ∈ (macosFlow env).2 →
        (macosFlow env).2.getLast? = some Ev.release) ∧
     (Ev.connect ∈ (macosFlow env).2 →
        (macosFlow env).2 =
          [Ev.establish, Ev.connect, Ev.disconnect, Ev.release]) ∧
     (macosFlow env).2.count Ev.establish = (macosFlow env).2.count Ev.release ∧
     (macosFlow env).2.count Ev.connect = (macosFlow env).2.count Ev.disconnect) := by
  constructor
  · rcases windowsFlow_trace env with h | h | h <;> rw [h] <;> decide
  · rcases macosFlow_trace env with h | h | h <;> rw [h] <;> decide

/-- Witness for C7 at a concrete successful execution. -/
theorem C7_guaranteed_cleanup_witness :
    (windowsFlow ⟨0, 0, 0, ["r"], 0, 0, [0x90, 0x00]⟩).2.getLast? =
      some Ev.release :=
  (C7_guaranteed_cleanup ⟨0, 0, 0, ["r"], 0, 0, [0x90, 0x00]⟩).1.1 (by decide)

/-- Claim C8: faults are distinguishable by taxonomy kind — errors with
different kinds are different values (`NoCardDetectedError` is a
distinct exception class and the `RuntimeError` message formats are
pairwise distinct, rendered as distinct constructors) — and each of the
five kinds named by the claim is realized by an execution of the
one-shot Windows flow. -/
theorem C8_faults_distinguishable :
    (∀ e1 e2 : PyErr, errKind e1 ≠ errKind e2 → e1 ≠ e2) ∧
    (∃ env : OneShotEnv, ∃ e : PyErr, (windowsFlow env).1 = Except.error e ∧
      errKind e = FaultKind.subsystemUnavailable) ∧
    (∃ env : OneShotEnv, ∃ e : PyErr, (windowsFlow env).1 = Except.error e ∧
      errKind e = FaultKind.noReaderFound) ∧
    (∃ env : OneShotEnv, ∃ e : PyErr, (windowsFlow env).1 = Except.error e ∧
      errKind e = FaultKind.noCardDetected) ∧
    (∃ env : OneShotEnv, ∃ e : PyErr, (windowsFlow env).1 = Except.error e ∧
      errKind e = FaultKind.cardCommandError) ∧
    (∃ env : OneShotEnv, ∃ e : PyErr, (windowsFlow env).1 = Except.error e ∧
      errKind e = FaultKind.shortResponse) := by
  refine ⟨?_, ?_, ?_, ?_, ?_, ?_⟩
  · intro e1 e2 h heq
    exact h (by rw [heq])
  · exact ⟨⟨1, 0, 0, [], 0, 0, []⟩, PyErr.runtimeError (RtMsg.establishFailed 1),
      rfl, rfl⟩
  · exact ⟨⟨0, 0, 0, [], 0, 0, []⟩, PyErr.runtimeError RtMsg.noReaders, rfl, rfl⟩
  · refine ⟨⟨0, 0, 0, ["r"], (-2146434967 : Int), 0, []⟩, PyErr.noCardDetected,
      ?_, rfl⟩
    have hm : ((-2146434967 : Int) % 4294967296 = (SCARD_W_REMOVED_CARD : Int)) := by
      decide
    rw [windowsFlow_fst _ rfl]
    simp [windowsBody, hm]
  · exact ⟨⟨0, 0, 0, ["r"], 0, 0, [1, 2]⟩,
      PyErr.runtimeError (RtMsg.getUidFailed 1 2), rfl, rfl⟩
  · exact ⟨⟨0, 0, 0, ["r"], 0, 0, []⟩, PyErr.runtimeError RtMsg.shortResponse,
      rfl, rfl⟩

/-- Witness for C8: the no-card fault and the short-response fault are
different values, by applying the distinguishability conjunct at the
two concrete errors. -/
theorem C8_faults_distinguishable_witness :
    PyErr.noCardDetected ≠ PyErr.runtimeError RtMsg.shortResponse :=
  C8_faults_distinguishable.1 PyErr.noCardDetected
    (PyErr.runtimeError RtMsg.shortResponse) (by decide)

/-- Claim C10: on every response of length at least 2 the one-shot
decode step and the `read_uid` suffix check agree: they accept exactly
the same responses and, when they accept, produce the same uppercase
hexadecimal UID string. -/
theorem C10_decoders_agree (resp : List Nat) (h : 2 ≤ resp.length) :
    readUidCheck resp = (decode resp).toOption := by
  obtain ⟨data, a, b, rfl⟩ := exists_append_two resp h
  have h2 : (data ++ [a, b]).length - 2 = data.length := by
    simp
  rw [decode_append_two]
  unfold readUidCheck
  rw [h2, List.drop_left, List.take_left]
  by_cases hab : (a, b) = ((0x90 : Nat), (0x00 : Nat))
  · obtain ⟨ha, hb⟩ : a = 0x90 ∧ b = 0x00 := by simpa using hab
    subst ha
    subst hb
    rw [if_pos ⟨h, rfl⟩, if_pos rfl]
    rfl
  · rw [if_neg ?_, if_neg hab]
    · rfl
    · rintro ⟨_, hdrop⟩
      have hab2 : a = 0x90 ∧ b = 0x00 := by simpa using hdrop
      exact hab (by simp [hab2.1, hab2.2])

/-- Witness for C10 at two concrete responses, one accepted and one
rejected by both decoders. -/
theorem C10_decoders_agree_witness :
    readUidCheck [4, 7, 0x90, 0x00] = (decode [4, 7, 0x90, 0x00]).toOption ∧
    readUidCheck [1, 2, 3] = (decode [1, 2, 3]).toOption :=
  ⟨C10_decoders_agree [4, 7, 0x90, 0x00] (by decide),
   C10_decoders_agree [1, 2, 3] (by decide)⟩

end PcscUid
